import Mathlib

/-!
# CLPKM schedule service (runtime/ScheduleService.cpp)

A shallow embedding of the client side of the CLPKM schedule service: the
priority classifier of the constructor, start-up (`StartBus`), teardown
(`Terminate`), the admission-control facade (`SchedStart` / `SchedEnd`), the
notification handler and the two background workers.

Threads are modelled by explicit state passing.  Every call to the transport
library, to the condition variable and to the worker thread is recorded, in
program order, in a list of `Event`s.  The results of the transport library
calls are inputs of the model.  The `unsigned` run-level counter is a natural
number kept below `2 ^ 32`.
-/

namespace CLPKM

/-- Priority class of the process (`ScheduleService::priority`). -/
inductive priority where
  | LOW
  | HIGH
  deriving DecidableEq, Repr

/-- Number of values of the 32-bit `unsigned` type of
`std::atomic<unsigned> RunLevel`, that is `2 ^ 32`. -/
@[irreducible] def UINT_MOD : Nat := 4294967296

/-- Calls that leave the service object, in program order.  Handles are
`Option Nat`, with `none` for `nullptr`. -/
inductive Event where
  | sd_bus_open_system
  | sd_bus_open_user
  | sd_bus_add_match (member : String)
  | sd_bus_call_method (method : String) (arg : Option Bool)
  | sd_bus_message_read (types : String)
  | sd_bus_error_free
  | sd_bus_message_unref
  | sd_bus_slot_unref (slot : Option Nat)
  | sd_bus_flush_close_unref (bus : Option Nat)
  | sd_bus_process
  | sd_bus_wait (timeout : Nat)
  | thread_spawn (worker : priority)
  | thread_join
  | notify_one
  | notify_all
  | store_IsOnTerminate
  | Log (fmt : String) (arg : String)
  deriving DecidableEq, Repr

/-- The data members of `ScheduleService`.  `IPCWorker` is `some p` while the
worker thread of class `p` is joinable. -/
structure ScheduleService where
  IsOnTerminate : Bool
  IsOnSystemBus : Bool
  Priority : priority
  Bus : Option Nat
  Slot : Option Nat
  Threshold : Nat
  RunLevel : Nat
  CompilerPath : String
  IPCWorker : Option priority
  deriving DecidableEq, Repr

/-- Result of running a member function: the new state, the calls it made and
the diagnostic of the assertion that aborted the process, if one did. -/
structure Run where
  st : ScheduleService
  events : List Event
  fatal : Option String
  deriving DecidableEq, Repr

/-- Modelled from the spec: the macro `INTER_ASSERT` of ErrorHandling.hpp, which
is not part of the sources at hand.  Section 7 of the specification: a failed
check is unrecoverable and aborts the process with a diagnostic naming the
failing operation.  The result is `some msg` when the process is aborted. -/
def INTER_ASSERT (cond : Bool) (msg : String) : Option String :=
  if cond then none else some msg

/-- The `strcmp` of the C library on NUL-free strings: zero exactly on equal
strings, otherwise the sign of the first difference. -/
def strcmp : List Char → List Char → Int
  | [], [] => 0
  | [], _ :: _ => -1
  | _ :: _, [] => 1
  | a :: as, b :: bs =>
    if a = b then strcmp as bs else if a.toNat < b.toNat then -1 else 1

/-- Results of the transport library calls made by `StartBus`. -/
structure BusEnv where
  openRet : Int
  busHandle : Nat
  addMatchRet : Int
  slotHandle : Nat
  getConfigRet : Int
  readConfigRet : Int
  Path : String
  Threshold : Nat
  Level : Nat
  deriving DecidableEq, Repr

/-- The body of `ScheduleService::StartBus`. -/
def StartBus (s : ScheduleService) (e : BusEnv) : Run :=
  let opened := if s.IsOnSystemBus then Event.sd_bus_open_system else Event.sd_bus_open_user
  match INTER_ASSERT (decide (e.openRet ≥ 0)) "failed to open bus" with
  | some msg => { st := s, events := [opened], fatal := some msg }
  | none =>
    let s1 := { s with Bus := some e.busHandle }
    -- Only low priority tasks need to get config
    if s1.Priority ≠ priority.LOW then
      { st := { s1 with IPCWorker := some priority.HIGH },
        events := [opened, Event.thread_spawn priority.HIGH],
        fatal := none }
    else
      let t2 := [opened, Event.sd_bus_add_match "RunLevelChanged"]
      match INTER_ASSERT (decide (e.addMatchRet ≥ 0)) "failed to add match" with
      | some msg => { st := s1, events := t2, fatal := some msg }
      | none =>
        let s2 := { s1 with Slot := some e.slotHandle }
        let t3 := t2 ++ [Event.sd_bus_call_method "GetConfig" none]
        match INTER_ASSERT (decide (e.getConfigRet ≥ 0)) "call method failed" with
        | some msg => { st := s2, events := t3, fatal := some msg }
        | none =>
          let t4 := t3 ++ [Event.sd_bus_message_read "stb"]
          match INTER_ASSERT (decide (e.readConfigRet ≥ 0)) "failed to read message" with
          | some msg => { st := s2, events := t4, fatal := some msg }
          | none =>
            let s3 := { s2 with Threshold := e.Threshold }
            let s4 := { s3 with CompilerPath := e.Path, RunLevel := e.Level % UINT_MOD }
            { st := { s4 with IPCWorker := some priority.LOW },
              events := t4 ++ [Event.Log "Got config from the service" e.Path,
                               Event.sd_bus_error_free,
                               Event.sd_bus_message_unref,
                               Event.thread_spawn priority.LOW],
              fatal := none }

/-- The member initialisers of the constructor. -/
def ScheduleService.initial : ScheduleService :=
  { IsOnTerminate := false, IsOnSystemBus := false, Priority := priority.LOW,
    Bus := none, Slot := none, Threshold := 0, RunLevel := 0,
    CompilerPath := "", IPCWorker := none }

/-- The part of the constructor that reads `CLPKM_PRIORITY`; `Fine` is the
result of `getenv`, `none` for a null pointer. -/
def classify (s : ScheduleService) (Fine : Option String) : ScheduleService × List Event :=
  match Fine with
  | none => (s, [])
  | some v =>
    if strcmp v.data "high".data = 0 then
      ({ s with Priority := priority.HIGH }, [])
    else if strcmp v.data "low".data ≠ 0 then
      (s, [Event.Log "Unrecognised priority" v])
    else
      (s, [])

/-- The constructor `ScheduleService::ScheduleService`. -/
def ScheduleService.new (Fine : Option String) (e : BusEnv) : Run :=
  let c := classify ScheduleService.initial Fine
  let r := StartBus c.1 e
  { r with events := c.2 ++ r.events }

/-- The body of `ScheduleService::Terminate`. -/
def Terminate (s : ScheduleService) : Run :=
  let s1 := { s with IsOnTerminate := true }
  let t1 := [Event.store_IsOnTerminate]
  let t2 := if s1.Priority = priority.HIGH then t1 ++ [Event.notify_all] else t1
  let joined := if s1.IPCWorker.isSome then ({ s1 with IPCWorker := none }, t2 ++ [Event.thread_join])
                else (s1, t2)
  -- Clean up and reset to NULL
  let s3 := { joined.1 with Slot := none }
  let t3 := joined.2 ++ [Event.sd_bus_slot_unref joined.1.Slot]
  let s4 := { s3 with Bus := none }
  let t4 := t3 ++ [Event.sd_bus_flush_close_unref s3.Bus]
  { st := s4, events := t4, fatal := none }

/-- The notification handler `RunLevelChangeWatcher`; `readRet` and `payload`
are the result of `sd_bus_message_read` and the boolean it decoded. -/
def RunLevelChangeWatcher (s : ScheduleService) (readRet : Int) (payload : Bool) : Run :=
  match INTER_ASSERT (decide (readRet ≥ 0)) "failed to read message from bus" with
  | some msg => { st := s, events := [Event.sd_bus_message_read "b"], fatal := some msg }
  | none =>
    let Level : Nat := if payload then 1 else 0
    { st := { s with RunLevel := Level },
      events := [Event.sd_bus_message_read "b", Event.Log "Run level changed" (toString Level)],
      fatal := none }

/-- What happens around a caller that is blocked in `CV.wait`: the handler
runs on a `RunLevelChanged` broadcast, or the caller is woken (by a
notification or spuriously) and evaluates its predicate again. -/
inductive LowEvent where
  | signal (readRet : Int) (payload : Bool)
  | wake
  deriving DecidableEq, Repr

/-- How far a call of `SchedStart` got. -/
inductive Status where
  | returned
  | blocked
  | aborted
  deriving DecidableEq, Repr

/-- Result of `SchedStart`: the state, the calls made, how far the call got,
the values of `RunLevel` loaded by the evaluations of the wait predicate, in
order, and the events the call did not live to see. -/
structure CallResult where
  st : ScheduleService
  events : List Event
  status : Status
  reads : List Nat
  rest : List LowEvent
  deriving DecidableEq, Repr

/-- A caller blocked inside `CV.wait(Lock, pred)` with `pred = !RunLevel`:
`while (!pred()) wait(Lock);` after the first evaluation found `pred` false. -/
def waitBlocked (s : ScheduleService) : List LowEvent → CallResult
  | [] => { st := s, events := [], status := Status.blocked, reads := [], rest := [] }
  | LowEvent.signal r p :: evs =>
    let h := RunLevelChangeWatcher s r p
    match h.fatal with
    | some _ => { st := h.st, events := [], status := Status.aborted, reads := [], rest := evs }
    | none => waitBlocked h.st evs
  | LowEvent.wake :: evs =>
    if s.RunLevel = 0 then
      { st := s, events := [], status := Status.returned, reads := [s.RunLevel], rest := evs }
    else
      let r := waitBlocked s evs
      { r with reads := s.RunLevel :: r.reads }

/-- The body of `ScheduleService::SchedStart`.  The events are those that occur
while a LOW caller is inside the call; a HIGH caller never looks at them. -/
def SchedStart (s : ScheduleService) (evs : List LowEvent) : CallResult :=
  if s.Priority = priority.HIGH then
    -- Notify the worker that the RunLevel is no longer 0
    let old := s.RunLevel
    { st := { s with RunLevel := (old + 1) % UINT_MOD },
      events := if old = 0 then [Event.notify_one] else [],
      status := Status.returned, reads := [], rest := evs }
  else
    -- Wait until RunLevel becomes 0
    if s.RunLevel = 0 then
      { st := s, events := [], status := Status.returned, reads := [s.RunLevel], rest := evs }
    else
      let r := waitBlocked s evs
      { r with reads := s.RunLevel :: r.reads }

/-- The body of `ScheduleService::SchedEnd`. -/
def SchedEnd (s : ScheduleService) : Run :=
  if s.Priority = priority.LOW then
    { st := s, events := [], fatal := none }
  else
    -- the decrement of an `unsigned`: minus one modulo `2 ^ 32`
    let new := (UINT_MOD - 1 + s.RunLevel) % UINT_MOD
    { st := { s with RunLevel := new },
      events := if new = 0 then [Event.notify_one] else [],
      fatal := none }

/-- Reply of the daemon to one `SetHighPrioProc` call: the results of
`sd_bus_call_method` and `sd_bus_message_read` and the decoded boolean. -/
structure Reply where
  callRet : Int
  readRet : Int
  IsGranted : Nat
  deriving DecidableEq, Repr

/-- Where the HIGH worker thread stands. -/
inductive WorkerPC where
  | LoopHead
  | InWait
  | Returned
  | Aborted (msg : String)
  deriving DecidableEq, Repr

/-- The locals of `HighPrioProcWorker`, its program point and the number of
`SetHighPrioProc` calls it has issued. -/
structure HighWorker where
  OldRunLevel : Bool
  pc : WorkerPC
  calls : Nat
  deriving DecidableEq, Repr

/-- The start of the HIGH worker thread. -/
def HighWorker.spawned : HighWorker :=
  { OldRunLevel := false, pc := WorkerPC.LoopHead, calls := 0 }

/-- One pass of `HighPrioProcWorker` from an evaluation of the predicate of
`CV.wait` to the end of the loop body. -/
def HighPrioProcWorker_body (s : ScheduleService) (w : HighWorker) (reply : Reply) :
    HighWorker × List Event :=
  let RunLevelChanged := w.OldRunLevel != (s.RunLevel != 0)
  if !(s.IsOnTerminate || RunLevelChanged) then
    ({ w with pc := WorkerPC.InWait }, [])
  -- If we got here due to IsOnTerminate
  else if s.IsOnTerminate then
    ({ w with pc := WorkerPC.Returned }, [])
  else
    let w1 := { w with OldRunLevel := !w.OldRunLevel, calls := w.calls + 1 }
    let t1 := [Event.sd_bus_call_method "SetHighPrioProc" (some w1.OldRunLevel)]
    match INTER_ASSERT (decide (reply.callRet ≥ 0)) "call method failed" with
    | some msg => ({ w1 with pc := WorkerPC.Aborted msg }, t1)
    | none =>
      let t2 := t1 ++ [Event.sd_bus_message_read "b"]
      match INTER_ASSERT (decide (reply.readRet ≥ 0)) "failed to read message" with
      | some msg => ({ w1 with pc := WorkerPC.Aborted msg }, t2)
      | none =>
        match INTER_ASSERT (reply.IsGranted != 0)
            "the schedule service denied priority change!" with
        | some msg => ({ w1 with pc := WorkerPC.Aborted msg }, t2)
        | none =>
          ({ w1 with pc := WorkerPC.LoopHead },
           t2 ++ [Event.sd_bus_error_free, Event.sd_bus_message_unref])

/-- The loop `while (!IsOnTerminate)` of `HighPrioProcWorker`, run until the
thread blocks in `CV.wait`, returns or aborts the process; `daemon n` is the
reply to the call number `n`.  With no fuel left the thread stays at the loop
head. -/
def HighPrioProcWorker_loop :
    Nat → ScheduleService → HighWorker → (Nat → Reply) → HighWorker × List Event
  | 0, _, w, _ => (w, [])
  | fuel + 1, s, w, daemon =>
    if s.IsOnTerminate then
      ({ w with pc := WorkerPC.Returned }, [])
    else
      let r := HighPrioProcWorker_body s w (daemon w.calls)
      match r.1.pc with
      | WorkerPC.LoopHead =>
        let r2 := HighPrioProcWorker_loop fuel s r.1 daemon
        (r2.1, r.2 ++ r2.2)
      | _ => r

/-- Let the thread of `HighPrioProcWorker` run from where it stands until it
blocks in `CV.wait` again, returns or aborts. -/
def HighPrioProcWorker (fuel : Nat) (s : ScheduleService) (w : HighWorker)
    (daemon : Nat → Reply) : HighWorker × List Event :=
  match w.pc with
  | WorkerPC.LoopHead => HighPrioProcWorker_loop fuel s w daemon
  | WorkerPC.InWait =>
    let r := HighPrioProcWorker_body s w (daemon w.calls)
    match r.1.pc with
    | WorkerPC.LoopHead =>
      let r2 := HighPrioProcWorker_loop fuel s r.1 daemon
      (r2.1, r.2 ++ r2.2)
    | _ => r
  | WorkerPC.Returned => (w, [])
  | WorkerPC.Aborted _ => (w, [])

/-- The two entry points of the facade. -/
inductive Call where
  | SchedStart
  | SchedEnd
  deriving DecidableEq, Repr

/-- A step of a schedule of a HIGH process: a caller completes a call of the
facade, or the worker thread runs until it blocks again. -/
inductive Step where
  | call (c : Call)
  | worker
  deriving DecidableEq, Repr

/-- A HIGH process: the service, its worker and the calls made so far. -/
structure HighSys where
  s : ScheduleService
  w : HighWorker
  events : List Event
  deriving DecidableEq, Repr

/-- The state a facade call leaves behind, with the calls it made. -/
def applyCall (s : ScheduleService) : Call → ScheduleService × List Event
  | Call.SchedStart => ((SchedStart s []).st, (SchedStart s []).events)
  | Call.SchedEnd => ((SchedEnd s).st, (SchedEnd s).events)

/-- One step of a schedule.  Once the worker has aborted the process nothing
runs any more. -/
def HighSys.step (fuel : Nat) (daemon : Nat → Reply) (σ : HighSys) : Step → HighSys
  | Step.call c =>
    match σ.w.pc with
    | WorkerPC.Aborted _ => σ
    | _ =>
      let r := applyCall σ.s c
      { σ with s := r.1, events := σ.events ++ r.2 }
  | Step.worker =>
    let r := HighPrioProcWorker fuel σ.s σ.w daemon
    { σ with w := r.1, events := σ.events ++ r.2 }

/-- Run a schedule. -/
def runSchedule (fuel : Nat) (daemon : Nat → Reply) (σ : HighSys) (steps : List Step) : HighSys :=
  steps.foldl (HighSys.step fuel daemon) σ

/-- The counter of a HIGH process after a sequence of facade calls. -/
def runCalls (s : ScheduleService) : List Call → ScheduleService
  | [] => s
  | c :: cs => runCalls (applyCall s c).1 cs

/-- Whether some `SchedEnd` of the sequence decrements the counter at zero. -/
def decrementsAtZero (s : ScheduleService) : List Call → Bool
  | [] => false
  | c :: cs => (c = Call.SchedEnd && s.RunLevel = 0) || decrementsAtZero (applyCall s c).1 cs

/-- The boolean announced to the daemon, for a `SetHighPrioProc` call. -/
def announced : Event → Option Bool
  | Event.sd_bus_call_method m (some b) => if m = "SetHighPrioProc" then some b else none
  | _ => none

/-- The booleans announced to the daemon by `SetHighPrioProc` calls, in order. -/
def announcements (t : List Event) : List Bool :=
  t.filterMap announced

/-- Whether a reply lets the worker go on: both transport calls succeeded and
the daemon granted the change. -/
def Reply.granted (r : Reply) : Bool :=
  decide (0 ≤ r.callRet) && decide (0 ≤ r.readRet) && (r.IsGranted != 0)

/-- The bookkeeping of a worker that went from `c0` calls to the state `w`
while issuing `evs`: it counts its announcements, every reply but the last it
consumed was a grant, and so was the last unless the worker has aborted. -/
def Consistent (daemon : Nat → Reply) (c0 : Nat) (w : HighWorker) (evs : List Event) : Prop :=
  (announcements evs).length + c0 = w.calls ∧
  (∀ i, c0 ≤ i → i + 1 < w.calls → (daemon i).granted = true) ∧
  ((∀ msg, w.pc ≠ WorkerPC.Aborted msg) →
    ∀ i, c0 ≤ i → i < w.calls → (daemon i).granted = true)

/-- A daemon that denies every request. -/
def denyAll : Nat → Reply :=
  fun _ => { callRet := 0, readRet := 0, IsGranted := 0 }

/-- The constant `EINTR` of the C library on Linux. -/
def EINTR : Int := 4

/-- The locals of `LowPrioProcWorker`. -/
structure LowWorker where
  OldRunLevel : Bool
  Timeout : Nat
  deriving DecidableEq, Repr

/-- The prologue of `LowPrioProcWorker`; `timeoutRet` and `advertised` are the
result of `sd_bus_get_timeout` and the timeout it stored. -/
def LowPrioProcWorker_start (s : ScheduleService) (timeoutRet : Int) (advertised : Nat) :
    Option LowWorker :=
  match INTER_ASSERT (decide (timeoutRet ≥ 0)) "failed to get bus timeout" with
  | some _ => none
  | none =>
    -- 0.1s shall be enough
    some { OldRunLevel := s.RunLevel != 0,
           Timeout := if advertised = 0 then 100000 else advertised }

/-- What one call of `sd_bus_process` did: its result and the invocation of the
notification handler it made, if any. -/
structure ProcessResult where
  Ret : Int
  signal : Option (Int × Bool)
  deriving DecidableEq, Repr

/-- The state after the handler invocation made by `sd_bus_process`. -/
def processed (s : ScheduleService) (p : ProcessResult) : Run :=
  match p.signal with
  | none => { st := s, events := [], fatal := none }
  | some (r, b) => RunLevelChangeWatcher s r b

/-- Result of one iteration of the loop of `LowPrioProcWorker`. -/
structure LowIter where
  st : ScheduleService
  w : LowWorker
  events : List Event
  fatal : Option String
  deriving DecidableEq, Repr

/-- One iteration of the loop of `LowPrioProcWorker`.  `HighAsBool` is the value
of `static_cast<bool>(priority::HIGH)`, fixed by the declaration of the
enumeration in ScheduleService.hpp. -/
def LowPrioProcWorker_iter (HighAsBool : Bool) (s : ScheduleService) (w : LowWorker)
    (p : ProcessResult) (waitRet : Int) : LowIter :=
  -- This may change RunLevel
  let h := processed s p
  let t1 := Event.sd_bus_process :: h.events
  match h.fatal with
  | some msg => { st := h.st, w := w, events := t1, fatal := some msg }
  | none =>
    match INTER_ASSERT (decide (p.Ret ≥ 0)) "failed to process bus" with
    | some msg => { st := h.st, w := w, events := t1, fatal := some msg }
    | none =>
      if p.Ret > 0 then
        { st := h.st, w := w, events := t1, fatal := none }
      else
        -- No more stuff to process at the moment
        let NewLevel : Bool := h.st.RunLevel != 0
        -- If RunLevel changes from high to low, notify those waiting
        let cmp : LowWorker × List Event :=
          if w.OldRunLevel != NewLevel then
            ({ w with OldRunLevel := NewLevel },
             if w.OldRunLevel == HighAsBool then [Event.notify_all] else [])
          else (w, [])
        let t2 := t1 ++ cmp.2 ++ [Event.sd_bus_wait cmp.1.Timeout]
        match INTER_ASSERT (decide (waitRet ≥ 0) || decide (waitRet = -EINTR))
            "failed to wait on bus" with
        | some msg => { st := h.st, w := cmp.1, events := t2, fatal := some msg }
        | none => { st := h.st, w := cmp.1, events := t2, fatal := none }

/-- The loop `while (!IsOnTerminate)` of `LowPrioProcWorker` over the results of
the transport calls of its successive iterations. -/
def LowPrioProcWorker_loop (HighAsBool : Bool) (s : ScheduleService) (w : LowWorker) :
    List (ProcessResult × Int) → LowIter
  | [] => { st := s, w := w, events := [], fatal := none }
  | (p, waitRet) :: rest =>
    if s.IsOnTerminate then
      { st := s, w := w, events := [], fatal := none }
    else
      let r := LowPrioProcWorker_iter HighAsBool s w p waitRet
      match r.fatal with
      | some _ => r
      | none =>
        let r2 := LowPrioProcWorker_loop HighAsBool r.st r.w rest
        { r2 with events := r.events ++ r2.events }

/-- A HIGH service just after a successful start-up. -/
def highService : ScheduleService :=
  { ScheduleService.initial with
    Priority := priority.HIGH, Bus := some 1, IPCWorker := some priority.HIGH }

/-- A LOW service just after a successful start-up with the given run level. -/
def lowService (level : Nat) : ScheduleService :=
  { ScheduleService.initial with
    Bus := some 1, Slot := some 2, RunLevel := level, IPCWorker := some priority.LOW }

/-- The results of a start-up in which every transport call succeeds. -/
def goodEnv : BusEnv :=
  { openRet := 0, busHandle := 1, addMatchRet := 0, slotHandle := 2,
    getConfigRet := 0, readConfigRet := 0, Path := "cc", Threshold := 5, Level := 1 }

/-- A HIGH worker blocked in `CV.wait` whose last report was "idle". -/
def HighWorker.waiting : HighWorker :=
  { OldRunLevel := false, pc := WorkerPC.InWait, calls := 0 }

/-- The counter as the notification handler alone leaves it after the events. -/
def handlerLevel (level : Nat) : List LowEvent → Nat
  | [] => level
  | LowEvent.signal _ b :: evs => handlerLevel (if b then 1 else 0) evs
  | LowEvent.wake :: evs => handlerLevel level evs

/-- The values of the counter at the wake-ups of the events. -/
def levelsAtWakes (level : Nat) : List LowEvent → List Nat
  | [] => []
  | LowEvent.signal _ b :: evs => levelsAtWakes (if b then 1 else 0) evs
  | LowEvent.wake :: evs => level :: levelsAtWakes level evs

/-- Whether `a` occurs in `l`, and earlier than the first `b`. -/
def occursBefore (a b : Event) (l : List Event) : Bool :=
  decide (l.indexOf a < l.indexOf b) && decide (l.indexOf a < l.length)

/-! ## Start-up, teardown and the priority classifier -/

theorem strcmp_eq_zero_iff (a b : List Char) : strcmp a b = 0 ↔ a = b := by
  induction a generalizing b with
  | nil => cases b <;> simp [strcmp]
  | cons x xs ih =>
    cases b with
    | nil => simp [strcmp]
    | cons y ys =>
      by_cases hxy : x = y
      · simp [strcmp, hxy, ih]
      · by_cases hlt : x.toNat < y.toNat <;> simp [strcmp, hxy, hlt]

theorem strcmp_data_eq_zero_iff (v w : String) : strcmp v.data w.data = 0 ↔ v = w := by
  rw [strcmp_eq_zero_iff]
  constructor
  · intro h
    exact String.ext h
  · intro h
    rw [h]

theorem StartBus_Priority (s : ScheduleService) (e : BusEnv) :
    (StartBus s e).st.Priority = s.Priority := by
  unfold StartBus INTER_ASSERT
  simp only []
  repeat' split
  all_goals rfl

theorem StartBus_no_unrecognised (s : ScheduleService) (e : BusEnv) (v : String) :
    Event.Log "Unrecognised priority" v ∉ (StartBus s e).events := by
  unfold StartBus INTER_ASSERT
  simp only []
  repeat' split
  all_goals simp

/-- C7: the priority class fixed by the constructor depends on the value of
`CLPKM_PRIORITY` alone: it is HIGH exactly when the variable is set to the
string "high" and LOW in every other case, and the message about an
unrecognised priority is logged exactly when the variable is set to a value
that is neither "high" nor "low". -/
theorem constructor_priority (Fine : Option String) (e : BusEnv) :
    ((ScheduleService.new Fine e).st.Priority = priority.HIGH ↔ Fine = some "high") ∧
    ((ScheduleService.new Fine e).st.Priority = priority.LOW ↔ Fine ≠ some "high") ∧
    ((∃ v, Event.Log "Unrecognised priority" v ∈ (ScheduleService.new Fine e).events) ↔
      ∃ v, Fine = some v ∧ v ≠ "high" ∧ v ≠ "low") := by
  have hP : (ScheduleService.new Fine e).st.Priority =
      (classify ScheduleService.initial Fine).1.Priority := by
    simp [ScheduleService.new, StartBus_Priority]
  have hE : ∀ v, Event.Log "Unrecognised priority" v ∈ (ScheduleService.new Fine e).events ↔
      Event.Log "Unrecognised priority" v ∈ (classify ScheduleService.initial Fine).2 := by
    intro v
    simp [ScheduleService.new, StartBus_no_unrecognised]
  simp only [hP, hE]
  cases Fine with
  | none => simp [classify, ScheduleService.initial]
  | some v =>
    by_cases h1 : v = "high"
    · subst h1
      simp [classify, (strcmp_data_eq_zero_iff "high" "high").2 rfl]
    · have h1n : ¬ strcmp v.data "high".data = 0 := fun h =>
        h1 ((strcmp_data_eq_zero_iff v "high").1 h)
      by_cases h2 : v = "low"
      · subst h2
        simp [classify, h1n, (strcmp_data_eq_zero_iff "low" "low").2 rfl,
          ScheduleService.initial, h1]
      · have h2n : ¬ strcmp v.data "low".data = 0 := fun h =>
          h2 ((strcmp_data_eq_zero_iff v "low").1 h)
        simp [classify, h1n, h2n, ScheduleService.initial, h1, h2]

/-- C6: teardown is idempotent.  For every state of the service a second
`Terminate` leaves the state of the first (flag set, worker not joinable, both
handles null), joins nothing and hands no non-null handle to either release
function. -/
theorem Terminate_idempotent (s : ScheduleService) :
    (Terminate (Terminate s).st).st = (Terminate s).st ∧
    (Terminate s).st.IsOnTerminate = true ∧
    (Terminate s).st.IPCWorker = none ∧
    (Terminate s).st.Slot = none ∧
    (Terminate s).st.Bus = none ∧
    Event.thread_join ∉ (Terminate (Terminate s).st).events ∧
    (∀ h, Event.sd_bus_slot_unref (some h) ∉ (Terminate (Terminate s).st).events) ∧
    (∀ h, Event.sd_bus_flush_close_unref (some h) ∉ (Terminate (Terminate s).st).events) := by
  cases hw : s.IPCWorker <;> cases hp : s.Priority <;> simp [Terminate, hw, hp]

/-- C5 as stated fails: teardown of a LOW service issues no `notify_all`. -/
theorem Terminate_low_no_wake :
    (Terminate (lowService 1)).events =
      [Event.store_IsOnTerminate, Event.thread_join,
       Event.sd_bus_slot_unref (some 2), Event.sd_bus_flush_close_unref (some 1)] ∧
    Event.notify_all ∉ (Terminate (lowService 1)).events := by
  simp [Terminate, lowService, ScheduleService.initial]

/-- C5, amended: `Terminate` sets the termination flag, then wakes all waiters
only when the priority is HIGH, then joins the worker when it is joinable, then
releases the subscription, then closes the connection; a `notify_all` is issued
exactly by a HIGH service. -/
theorem Terminate_order (s : ScheduleService) :
    (Terminate s).events =
      [Event.store_IsOnTerminate] ++
      (if s.Priority = priority.HIGH then [Event.notify_all] else []) ++
      (if s.IPCWorker.isSome then [Event.thread_join] else []) ++
      [Event.sd_bus_slot_unref s.Slot, Event.sd_bus_flush_close_unref s.Bus] ∧
    (Event.notify_all ∈ (Terminate s).events ↔ s.Priority = priority.HIGH) ∧
    (Terminate s).st.IsOnTerminate = true := by
  cases hw : s.IPCWorker <;> cases hp : s.Priority <;> simp [Terminate, hw, hp]

/-- C4 as stated fails: on a LOW service the handler is registered before the
`GetConfig` call is made, not after it. -/
theorem StartBus_low_subscribes_first :
    (StartBus ScheduleService.initial goodEnv).events =
      [Event.sd_bus_open_user, Event.sd_bus_add_match "RunLevelChanged",
       Event.sd_bus_call_method "GetConfig" none, Event.sd_bus_message_read "stb",
       Event.Log "Got config from the service" "cc",
       Event.sd_bus_error_free, Event.sd_bus_message_unref,
       Event.thread_spawn priority.LOW] ∧
    occursBefore (Event.sd_bus_call_method "GetConfig" none)
      (Event.sd_bus_add_match "RunLevelChanged")
      (StartBus ScheduleService.initial goodEnv).events = false ∧
    occursBefore (Event.sd_bus_add_match "RunLevelChanged")
      (Event.sd_bus_call_method "GetConfig" none)
      (StartBus ScheduleService.initial goodEnv).events = true := by
  have h : (StartBus ScheduleService.initial goodEnv).events =
      [Event.sd_bus_open_user, Event.sd_bus_add_match "RunLevelChanged",
       Event.sd_bus_call_method "GetConfig" none, Event.sd_bus_message_read "stb",
       Event.Log "Got config from the service" "cc",
       Event.sd_bus_error_free, Event.sd_bus_message_unref,
       Event.thread_spawn priority.LOW] := by
    simp [StartBus, INTER_ASSERT, ScheduleService.initial, goodEnv]
  rw [h]
  refine ⟨rfl, ?_, ?_⟩ <;> simp [occursBefore, List.indexOf_cons]

/-- C4, amended: when every transport call succeeds, `StartBus` of a LOW service
opens the connection, then registers the `RunLevelChanged` handler, then makes
the single `GetConfig` call and stores its three values, then spawns the LOW
worker; `StartBus` of a HIGH service opens the connection and spawns the HIGH
worker, with no `GetConfig` call and no subscription. -/
theorem StartBus_order (s : ScheduleService) (e : BusEnv) (hopen : e.openRet ≥ 0) :
    (s.Priority = priority.HIGH →
      (StartBus s e).events =
        [if s.IsOnSystemBus then Event.sd_bus_open_system else Event.sd_bus_open_user,
         Event.thread_spawn priority.HIGH] ∧
      (StartBus s e).fatal = none ∧
      (StartBus s e).st =
        { s with Bus := some e.busHandle, IPCWorker := some priority.HIGH }) ∧
    (s.Priority = priority.LOW → e.addMatchRet ≥ 0 → e.getConfigRet ≥ 0 →
      e.readConfigRet ≥ 0 →
      (StartBus s e).events =
        [if s.IsOnSystemBus then Event.sd_bus_open_system else Event.sd_bus_open_user,
         Event.sd_bus_add_match "RunLevelChanged",
         Event.sd_bus_call_method "GetConfig" none, Event.sd_bus_message_read "stb",
         Event.Log "Got config from the service" e.Path,
         Event.sd_bus_error_free, Event.sd_bus_message_unref,
         Event.thread_spawn priority.LOW] ∧
      (StartBus s e).fatal = none ∧
      (StartBus s e).st =
        { s with Bus := some e.busHandle, Slot := some e.slotHandle,
                 Threshold := e.Threshold, CompilerPath := e.Path,
                 RunLevel := e.Level % UINT_MOD, IPCWorker := some priority.LOW }) := by
  constructor
  · intro hp
    simp [StartBus, INTER_ASSERT, hopen, hp]
  · intro hp h1 h2 h3
    simp [StartBus, INTER_ASSERT, hopen, hp, h1, h2, h3]

/-- The order of start-up at a LOW and at a HIGH service, every call succeeding. -/
theorem StartBus_order_witness :
    (StartBus ScheduleService.initial goodEnv).events =
      [Event.sd_bus_open_user, Event.sd_bus_add_match "RunLevelChanged",
       Event.sd_bus_call_method "GetConfig" none, Event.sd_bus_message_read "stb",
       Event.Log "Got config from the service" "cc",
       Event.sd_bus_error_free, Event.sd_bus_message_unref,
       Event.thread_spawn priority.LOW] ∧
    (StartBus { ScheduleService.initial with Priority := priority.HIGH } goodEnv).events =
      [Event.sd_bus_open_user, Event.thread_spawn priority.HIGH] :=
  ⟨((StartBus_order ScheduleService.initial goodEnv (by decide)).2 rfl
      (by decide) (by decide) (by decide)).1,
   ((StartBus_order { ScheduleService.initial with Priority := priority.HIGH } goodEnv
      (by decide)).1 rfl).1⟩

/-! ## The run-level counter of a HIGH process -/

theorem UINT_MOD_eq : UINT_MOD = 4294967296 := by
  unfold UINT_MOD
  rfl

theorem waitBlocked_nil (s : ScheduleService) :
    waitBlocked s [] =
      { st := s, events := [], status := Status.blocked, reads := [], rest := [] } := by
  simp [waitBlocked]

theorem applyCall_Priority (s : ScheduleService) (c : Call) :
    (applyCall s c).1.Priority = s.Priority := by
  cases c
  · by_cases hP : s.Priority = priority.HIGH <;> by_cases h0 : s.RunLevel = 0 <;>
      simp [applyCall, SchedStart, hP, h0, waitBlocked_nil]
  · by_cases hP : s.Priority = priority.LOW <;> simp [applyCall, SchedEnd, hP]

theorem applyCall_RunLevel_start (s : ScheduleService) (hP : s.Priority = priority.HIGH) :
    (applyCall s Call.SchedStart).1.RunLevel = (s.RunLevel + 1) % UINT_MOD := by
  simp [applyCall, SchedStart, hP]

theorem applyCall_RunLevel_end (s : ScheduleService) (hP : s.Priority = priority.HIGH) :
    (applyCall s Call.SchedEnd).1.RunLevel = (UINT_MOD - 1 + s.RunLevel) % UINT_MOD := by
  simp [applyCall, SchedEnd, hP]

theorem balanced_aux (calls : List Call) :
    ∀ (s : ScheduleService) (d : Nat), s.Priority = priority.HIGH → s.RunLevel = d →
      (∀ k, (calls.take k).count Call.SchedEnd ≤ d + (calls.take k).count Call.SchedStart ∧
        d + (calls.take k).count Call.SchedStart - (calls.take k).count Call.SchedEnd
          < UINT_MOD) →
      decrementsAtZero s calls = false ∧
      (runCalls s calls).RunLevel =
        d + calls.count Call.SchedStart - calls.count Call.SchedEnd := by
  induction calls with
  | nil =>
    intro s d _ hd _
    simp [decrementsAtZero, runCalls, hd]
  | cons c cs ih =>
    intro s d hP hd hbal
    have h0 := hbal 0
    have h1 := hbal 1
    simp only [List.take_zero, List.count_nil, Nat.add_zero, Nat.sub_zero] at h0
    rw [UINT_MOD_eq] at h0
    cases c with
    | SchedStart =>
      simp [List.take_succ_cons, List.count_cons, UINT_MOD_eq] at h1
      have hnew : (applyCall s Call.SchedStart).1.RunLevel = d + 1 := by
        rw [applyCall_RunLevel_start s hP, hd, UINT_MOD_eq]
        omega
      have hP2 := (applyCall_Priority s Call.SchedStart).trans hP
      have hrec := ih (applyCall s Call.SchedStart).1 (d + 1) hP2 hnew (by
        intro k
        have hk := hbal (k + 1)
        simp [List.take_succ_cons, List.count_cons] at hk
        constructor <;> omega)
      simp only [decrementsAtZero, runCalls, List.count_cons]
      simp [hrec.1, hrec.2]
      omega
    | SchedEnd =>
      simp [List.take_succ_cons, List.count_cons, UINT_MOD_eq] at h1
      have hnew : (applyCall s Call.SchedEnd).1.RunLevel = d - 1 := by
        rw [applyCall_RunLevel_end s hP, hd, UINT_MOD_eq]
        omega
      have hP2 := (applyCall_Priority s Call.SchedEnd).trans hP
      have hrec := ih (applyCall s Call.SchedEnd).1 (d - 1) hP2 hnew (by
        intro k
        have hk := hbal (k + 1)
        simp [List.take_succ_cons, List.count_cons] at hk
        constructor <;> omega)
      simp only [decrementsAtZero, runCalls, List.count_cons]
      simp [hrec.1, hrec.2, hd]
      omega

/-- C3 as stated fails: a `SchedEnd` on a HIGH service whose counter is 0 wraps
the counter to `2 ^ 32 - 1`. -/
theorem SchedEnd_wraps_at_zero :
    highService.Priority = priority.HIGH ∧ highService.RunLevel = 0 ∧
    (runCalls highService [Call.SchedEnd]).RunLevel = 4294967295 ∧
    decrementsAtZero highService [Call.SchedEnd] = true := by
  refine ⟨rfl, rfl, ?_, ?_⟩
  · simp [runCalls, applyCall, SchedEnd, highService, ScheduleService.initial, UINT_MOD_eq]
  · simp [decrementsAtZero, highService, ScheduleService.initial]

/-- C3, amended: on a HIGH service starting from counter 0, for every sequence of
`SchedStart` / `SchedEnd` calls in which every initial segment has at least as
many `SchedStart` as `SchedEnd` calls and a nesting depth below `2 ^ 32`, no
`SchedEnd` decrements the counter at zero, and the counter ends at the number
of `SchedStart` calls minus the number of `SchedEnd` calls. -/
theorem balanced_never_wraps (s : ScheduleService) (calls : List Call)
    (hP : s.Priority = priority.HIGH) (h0 : s.RunLevel = 0)
    (hbal : ∀ k, (calls.take k).count Call.SchedEnd ≤ (calls.take k).count Call.SchedStart ∧
      (calls.take k).count Call.SchedStart - (calls.take k).count Call.SchedEnd < UINT_MOD) :
    decrementsAtZero s calls = false ∧
    (runCalls s calls).RunLevel =
      calls.count Call.SchedStart - calls.count Call.SchedEnd := by
  have h := balanced_aux calls s 0 hP h0 (by
    intro k
    have hk := hbal k
    constructor <;> omega)
  simpa using h

/-- The nested calls start, start, end, end never decrement the counter at zero. -/
theorem balanced_never_wraps_witness :
    decrementsAtZero highService
      [Call.SchedStart, Call.SchedStart, Call.SchedEnd, Call.SchedEnd] = false ∧
    (runCalls highService
      [Call.SchedStart, Call.SchedStart, Call.SchedEnd, Call.SchedEnd]).RunLevel = 0 := by
  have h := balanced_never_wraps highService
    [Call.SchedStart, Call.SchedStart, Call.SchedEnd, Call.SchedEnd] rfl rfl (by
      intro k
      rcases k with _ | _ | _ | _ | k <;> simp [UINT_MOD_eq, List.count_cons])
  simpa [List.count_cons] using h

/-- C10: edges can go unannounced.  With the HIGH worker blocked in its wait and
its last report "idle", a `SchedStart` (counter 0 to 1) and a `SchedEnd`
(counter 1 to 0) that both complete before the worker evaluates its predicate
leave the predicate false: the worker blocks again without a single
`SetHighPrioProc` call, whatever the daemon would have replied. -/
theorem unannounced_edges (fuel : Nat) (daemon : Nat → Reply) :
    (runSchedule fuel daemon ⟨highService, HighWorker.waiting, []⟩
      [Step.call Call.SchedStart]).s.RunLevel = 1 ∧
    (runSchedule fuel daemon ⟨highService, HighWorker.waiting, []⟩
      [Step.call Call.SchedStart, Step.call Call.SchedEnd]).s.RunLevel = 0 ∧
    announcements (runSchedule fuel daemon ⟨highService, HighWorker.waiting, []⟩
      [Step.call Call.SchedStart, Step.call Call.SchedEnd, Step.worker]).events = [] ∧
    (runSchedule fuel daemon ⟨highService, HighWorker.waiting, []⟩
      [Step.call Call.SchedStart, Step.call Call.SchedEnd, Step.worker]).w =
      HighWorker.waiting ∧
    (runSchedule fuel daemon ⟨highService, HighWorker.waiting, []⟩
      [Step.call Call.SchedStart, Step.call Call.SchedEnd, Step.worker]).events =
      [Event.notify_one, Event.notify_one] := by
  have hev : (runSchedule fuel daemon ⟨highService, HighWorker.waiting, []⟩
      [Step.call Call.SchedStart, Step.call Call.SchedEnd, Step.worker]).events =
      [Event.notify_one, Event.notify_one] := by
    simp [runSchedule, HighSys.step, applyCall, SchedStart, SchedEnd, highService,
      ScheduleService.initial, HighWorker.waiting, HighPrioProcWorker,
      HighPrioProcWorker_body, UINT_MOD_eq]
  rw [hev]
  refine ⟨?_, ?_, ?_, ?_, rfl⟩
  · simp [runSchedule, HighSys.step, applyCall, SchedStart, highService,
      ScheduleService.initial, HighWorker.waiting, UINT_MOD_eq]
  · simp [runSchedule, HighSys.step, applyCall, SchedStart, SchedEnd, highService,
      ScheduleService.initial, HighWorker.waiting, UINT_MOD_eq]
  · simp [announcements, announced]
  · simp [runSchedule, HighSys.step, applyCall, SchedStart, SchedEnd, highService,
      ScheduleService.initial, HighWorker.waiting, HighPrioProcWorker,
      HighPrioProcWorker_body, UINT_MOD_eq]

/-! ## The LOW worker -/

theorem processed_no_notify (s : ScheduleService) (p : ProcessResult) :
    Event.notify_all ∉ (processed s p).events := by
  unfold processed
  split
  · simp
  · unfold RunLevelChangeWatcher INTER_ASSERT
    simp only []
    repeat' split
    all_goals simp

/-- C8: in an iteration of the LOW worker loop in which `sd_bus_process` reports
no pending work, with `static_cast<bool>(priority::HIGH)` being `true`, the
worker issues `notify_all` exactly when its previously observed state is `true`
and the counter is 0; it issues none on a change from low to high or without a
change; and afterwards the observed state is the zero / non-zero status of the
counter. -/
theorem LowPrioProcWorker_compare (HighAsBool : Bool) (s : ScheduleService) (w : LowWorker)
    (p : ProcessResult) (waitRet : Int)
    (hHigh : HighAsBool = true) (hproc : (processed s p).fatal = none) (hRet : p.Ret = 0) :
    (Event.notify_all ∈ (LowPrioProcWorker_iter HighAsBool s w p waitRet).events ↔
      (w.OldRunLevel = true ∧ (processed s p).st.RunLevel = 0)) ∧
    (w.OldRunLevel = false →
      Event.notify_all ∉ (LowPrioProcWorker_iter HighAsBool s w p waitRet).events) ∧
    (w.OldRunLevel = decide ((processed s p).st.RunLevel ≠ 0) →
      Event.notify_all ∉ (LowPrioProcWorker_iter HighAsBool s w p waitRet).events) ∧
    (LowPrioProcWorker_iter HighAsBool s w p waitRet).w.OldRunLevel =
      decide ((processed s p).st.RunLevel ≠ 0) ∧
    (LowPrioProcWorker_iter HighAsBool s w p waitRet).st.RunLevel =
      (processed s p).st.RunLevel := by
  have hn := processed_no_notify s p
  subst hHigh
  cases hold : w.OldRunLevel <;>
    by_cases hz : (processed s p).st.RunLevel = 0 <;>
    by_cases hwait : (0 ≤ waitRet ∨ waitRet = -EINTR) <;>
    simp [LowPrioProcWorker_iter, INTER_ASSERT, hproc, hRet, hold, hz, hwait, hn]

/-- The comparison step on the change from high to low. -/
theorem LowPrioProcWorker_compare_witness :
    Event.notify_all ∈
      (LowPrioProcWorker_iter true (lowService 0) ⟨true, 5⟩ ⟨0, none⟩ 0).events ∧
    (LowPrioProcWorker_iter true (lowService 0) ⟨true, 5⟩ ⟨0, none⟩ 0).w.OldRunLevel =
      false :=
  ⟨(LowPrioProcWorker_compare true (lowService 0) ⟨true, 5⟩ ⟨0, none⟩ 0 rfl rfl rfl).1.2
      ⟨rfl, rfl⟩,
   (LowPrioProcWorker_compare true (lowService 0) ⟨true, 5⟩ ⟨0, none⟩ 0 rfl rfl rfl).2.2.2.1⟩

/-! ## `SchedStart` of a LOW process -/

theorem waitBlocked_signal (s : ScheduleService) (r : Int) (p : Bool) (evs : List LowEvent)
    (hr : 0 ≤ r) :
    waitBlocked s (LowEvent.signal r p :: evs) =
      waitBlocked { s with RunLevel := if p then 1 else 0 } evs := by
  simp [waitBlocked, RunLevelChangeWatcher, INTER_ASSERT, hr]

theorem waitBlocked_wake_zero (s : ScheduleService) (evs : List LowEvent)
    (h : s.RunLevel = 0) :
    waitBlocked s (LowEvent.wake :: evs) =
      { st := s, events := [], status := Status.returned, reads := [0], rest := evs } := by
  simp [waitBlocked, h]

theorem waitBlocked_wake_nonzero (s : ScheduleService) (evs : List LowEvent)
    (h : s.RunLevel ≠ 0) :
    waitBlocked s (LowEvent.wake :: evs) =
      { waitBlocked s evs with reads := s.RunLevel :: (waitBlocked s evs).reads } := by
  simp [waitBlocked, h]

theorem signalsOk_tail (e : LowEvent) (evs : List LowEvent)
    (hOk : ∀ r b, LowEvent.signal r b ∈ e :: evs → 0 ≤ r) :
    ∀ r b, LowEvent.signal r b ∈ evs → 0 ≤ r :=
  fun r b h => hOk r b (List.mem_cons_of_mem e h)

theorem waitBlocked_spec (evs : List LowEvent) :
    ∀ (s : ScheduleService), (∀ r b, LowEvent.signal r b ∈ evs → 0 ≤ r) →
      ((waitBlocked s evs).status = Status.returned ∨
        (waitBlocked s evs).status = Status.blocked) ∧
      ((waitBlocked s evs).status = Status.returned ↔ 0 ∈ (waitBlocked s evs).reads) ∧
      ((waitBlocked s evs).status = Status.returned ↔ 0 ∈ levelsAtWakes s.RunLevel evs) ∧
      ((waitBlocked s evs).status = Status.returned →
        ∃ pre, evs = pre ++ LowEvent.wake :: (waitBlocked s evs).rest ∧
          handlerLevel s.RunLevel pre = 0) ∧
      (∃ seen, evs = seen ++ (waitBlocked s evs).rest ∧
        (waitBlocked s evs).st = { s with RunLevel := handlerLevel s.RunLevel seen }) ∧
      (waitBlocked s evs).events = [] := by
  induction evs with
  | nil =>
    intro s _
    rw [waitBlocked_nil]
    simp [levelsAtWakes, handlerLevel]
  | cons e evs ih =>
    intro s hOk
    have hOk2 := signalsOk_tail e evs hOk
    cases e with
    | signal r p =>
      have hr : 0 ≤ r := hOk r p (List.mem_cons_self _ _)
      rw [waitBlocked_signal s r p evs hr]
      obtain ⟨h1, h2, h3, h4, ⟨seen, h5, h6⟩, h7⟩ :=
        ih { s with RunLevel := if p then 1 else 0 } hOk2
      refine ⟨h1, h2, ?_, ?_, ?_, h7⟩
      · simpa [levelsAtWakes] using h3
      · intro hret
        obtain ⟨pre, hpre, hlvl⟩ := h4 hret
        refine ⟨LowEvent.signal r p :: pre, ?_, ?_⟩
        · rw [List.cons_append, ← hpre]
        · simpa [handlerLevel] using hlvl
      · refine ⟨LowEvent.signal r p :: seen, ?_, ?_⟩
        · rw [List.cons_append, ← h5]
        · rw [h6]
          simp [handlerLevel]
    | wake =>
      by_cases hz : s.RunLevel = 0
      · rw [waitBlocked_wake_zero s evs hz]
        refine ⟨Or.inl rfl, by simp, by simp [levelsAtWakes, hz], ?_, ?_, rfl⟩
        · intro _
          exact ⟨[], rfl, by simpa [handlerLevel] using hz⟩
        · exact ⟨[LowEvent.wake], rfl, by simp [handlerLevel]⟩
      · rw [waitBlocked_wake_nonzero s evs hz]
        obtain ⟨h1, h2, h3, h4, ⟨seen, h5, h6⟩, h7⟩ := ih s hOk2
        have hz2 : ¬ 0 = s.RunLevel := fun h => hz h.symm
        refine ⟨h1, ?_, ?_, ?_, ?_, h7⟩
        · simpa [hz2] using h2
        · simpa [levelsAtWakes, hz2] using h3
        · intro hret
          obtain ⟨pre, hpre, hlvl⟩ := h4 hret
          refine ⟨LowEvent.wake :: pre, ?_, ?_⟩
          · show LowEvent.wake :: evs = _
            rw [List.cons_append]
            exact congrArg _ hpre
          · simpa [handlerLevel] using hlvl
        · refine ⟨LowEvent.wake :: seen, ?_, ?_⟩
          · show LowEvent.wake :: evs = _
            rw [List.cons_append]
            exact congrArg _ h5
          · show (waitBlocked s evs).st = _
            rw [h6]
            simp [handlerLevel]

theorem handlerLevel_zero_signal (pre : List LowEvent) :
    ∀ level, level ≠ 0 → handlerLevel level pre = 0 →
      ∃ r, LowEvent.signal r false ∈ pre := by
  induction pre with
  | nil =>
    intro level h0 h
    exact absurd h h0
  | cons e pre ih =>
    intro level h0 h
    cases e with
    | wake =>
      obtain ⟨r, hr⟩ := ih level h0 (by simpa [handlerLevel] using h)
      exact ⟨r, List.mem_cons_of_mem _ hr⟩
    | signal r b =>
      cases b with
      | false => exact ⟨r, List.mem_cons_self _ _⟩
      | true =>
        obtain ⟨r2, hr2⟩ := ih 1 (by decide) (by simpa [handlerLevel] using h)
        exact ⟨r2, List.mem_cons_of_mem _ hr2⟩

theorem SchedStart_low_zero (s : ScheduleService) (evs : List LowEvent)
    (hLow : s.Priority = priority.LOW) (hz : s.RunLevel = 0) :
    SchedStart s evs =
      { st := s, events := [], status := Status.returned, reads := [0], rest := evs } := by
  simp [SchedStart, hLow, hz]

theorem SchedStart_low_nonzero (s : ScheduleService) (evs : List LowEvent)
    (hLow : s.Priority = priority.LOW) (hz : s.RunLevel ≠ 0) :
    SchedStart s evs =
      { waitBlocked s evs with reads := s.RunLevel :: (waitBlocked s evs).reads } := by
  simp [SchedStart, hLow, hz]

/-- C2: on a LOW service, for every sequence of handler writes and wake-ups
(spurious ones included) in which the handler decodes its messages, `SchedStart`
returns exactly when one of its predicate evaluations reads 0, which is exactly
when the counter is 0 at the call or at one of the wake-ups; it never aborts;
with the counter 0 at the call it returns at the first evaluation, all events
still ahead; with a non-zero counter it returns only at a wake-up that follows
a `RunLevelChanged(false)` and finds the counter 0; and the counter it leaves
is the one written by the handler alone. -/
theorem SchedStart_low (s : ScheduleService) (evs : List LowEvent)
    (hLow : s.Priority = priority.LOW)
    (hOk : ∀ r b, LowEvent.signal r b ∈ evs → 0 ≤ r) :
    ((SchedStart s evs).status = Status.returned ↔ 0 ∈ (SchedStart s evs).reads) ∧
    ((SchedStart s evs).status = Status.returned ↔
      0 ∈ s.RunLevel :: levelsAtWakes s.RunLevel evs) ∧
    ((SchedStart s evs).status = Status.returned ∨
      (SchedStart s evs).status = Status.blocked) ∧
    (s.RunLevel = 0 →
      (SchedStart s evs).status = Status.returned ∧ (SchedStart s evs).reads = [0] ∧
      (SchedStart s evs).rest = evs) ∧
    (s.RunLevel ≠ 0 → (SchedStart s evs).status = Status.returned →
      ∃ pre r, evs = pre ++ LowEvent.wake :: (SchedStart s evs).rest ∧
        LowEvent.signal r false ∈ pre ∧ handlerLevel s.RunLevel pre = 0) ∧
    (∃ seen, evs = seen ++ (SchedStart s evs).rest ∧
      (SchedStart s evs).st = { s with RunLevel := handlerLevel s.RunLevel seen }) ∧
    (SchedStart s evs).events = [] := by
  by_cases hz : s.RunLevel = 0
  · rw [SchedStart_low_zero s evs hLow hz]
    refine ⟨by simp, by simp [hz], Or.inl rfl, fun _ => ⟨rfl, rfl, rfl⟩,
      fun h => absurd hz h, ⟨[], rfl, ?_⟩, rfl⟩
    simp [handlerLevel]
  · rw [SchedStart_low_nonzero s evs hLow hz]
    obtain ⟨h1, h2, h3, h4, h5, h6⟩ := waitBlocked_spec evs s hOk
    have hz2 : ¬ 0 = s.RunLevel := fun h => hz h.symm
    refine ⟨?_, ?_, h1, fun h => absurd h hz, ?_, h5, h6⟩
    · simpa [hz2] using h2
    · simpa [hz2] using h3
    · intro _ hret
      obtain ⟨pre, hpre, hlvl⟩ := h4 hret
      obtain ⟨r, hr⟩ := handlerLevel_zero_signal pre s.RunLevel hz hlvl
      exact ⟨pre, r, hpre, hr, hlvl⟩

/-- Scenario B with a spurious wake-up: the counter is 1, the caller is woken,
`RunLevelChanged(false)` arrives, the caller is woken again. -/
theorem SchedStart_low_witness :
    ((SchedStart (lowService 1)
        [LowEvent.wake, LowEvent.signal 0 false, LowEvent.wake]).status = Status.returned ↔
      0 ∈ (SchedStart (lowService 1)
        [LowEvent.wake, LowEvent.signal 0 false, LowEvent.wake]).reads) ∧
    (SchedStart (lowService 1)
      [LowEvent.wake, LowEvent.signal 0 false, LowEvent.wake]).events = [] :=
  ⟨(SchedStart_low (lowService 1) [LowEvent.wake, LowEvent.signal 0 false, LowEvent.wake]
      rfl (by intro r b h; simp at h; omega)).1,
   (SchedStart_low (lowService 1) [LowEvent.wake, LowEvent.signal 0 false, LowEvent.wake]
      rfl (by intro r b h; simp at h; omega)).2.2.2.2.2.2⟩

/-! ## The HIGH worker -/

theorem announcements_append (a b : List Event) :
    announcements (a ++ b) = announcements a ++ announcements b := by
  simp [announcements, List.filterMap_append]

theorem body_wait (s : ScheduleService) (w : HighWorker) (reply : Reply)
    (hT : s.IsOnTerminate = false) (heq : w.OldRunLevel = (s.RunLevel != 0)) :
    HighPrioProcWorker_body s w reply = ({ w with pc := WorkerPC.InWait }, []) := by
  simp [HighPrioProcWorker_body, hT, heq]

theorem body_returned (s : ScheduleService) (w : HighWorker) (reply : Reply)
    (hT : s.IsOnTerminate = true) :
    HighPrioProcWorker_body s w reply = ({ w with pc := WorkerPC.Returned }, []) := by
  simp [HighPrioProcWorker_body, hT]

theorem body_granted (s : ScheduleService) (w : HighWorker) (reply : Reply)
    (hT : s.IsOnTerminate = false) (hne : w.OldRunLevel ≠ (s.RunLevel != 0))
    (hg : reply.granted = true) :
    HighPrioProcWorker_body s w reply =
      ({ OldRunLevel := !w.OldRunLevel, pc := WorkerPC.LoopHead, calls := w.calls + 1 },
       [Event.sd_bus_call_method "SetHighPrioProc" (some (!w.OldRunLevel)),
        Event.sd_bus_message_read "b", Event.sd_bus_error_free,
        Event.sd_bus_message_unref]) := by
  simp only [Reply.granted, Bool.and_eq_true, decide_eq_true_eq, bne_iff_ne, ne_eq] at hg
  obtain ⟨⟨h1, h2⟩, h3⟩ := hg
  have hne2 : (w.OldRunLevel != (s.RunLevel != 0)) = true := by
    cases hw : w.OldRunLevel <;> cases hr : (s.RunLevel != 0) <;> simp_all
  simp [HighPrioProcWorker_body, hT, hne2, INTER_ASSERT, h1, h2, h3]

theorem body_denied (s : ScheduleService) (w : HighWorker) (reply : Reply)
    (hT : s.IsOnTerminate = false) (hne : w.OldRunLevel ≠ (s.RunLevel != 0))
    (hg : reply.granted = false) :
    ∃ msg ev, HighPrioProcWorker_body s w reply =
      ({ OldRunLevel := !w.OldRunLevel, pc := WorkerPC.Aborted msg, calls := w.calls + 1 },
       ev) ∧ announcements ev = [!w.OldRunLevel] := by
  have hne2 : (w.OldRunLevel != (s.RunLevel != 0)) = true := by
    cases hw : w.OldRunLevel <;> cases hr : (s.RunLevel != 0) <;> simp_all
  by_cases h1 : 0 ≤ reply.callRet
  · by_cases h2 : 0 ≤ reply.readRet
    · have h3 : reply.IsGranted = 0 := by
        simpa [Reply.granted, h1, h2] using hg
      refine ⟨"the schedule service denied priority change!",
        [Event.sd_bus_call_method "SetHighPrioProc" (some (!w.OldRunLevel)),
         Event.sd_bus_message_read "b"], ?_, ?_⟩
      · simp [HighPrioProcWorker_body, hT, hne2, INTER_ASSERT, h1, h2, h3]
      · simp [announcements, List.filterMap_cons, announced]
    · refine ⟨"failed to read message",
        [Event.sd_bus_call_method "SetHighPrioProc" (some (!w.OldRunLevel)),
         Event.sd_bus_message_read "b"], ?_, ?_⟩
      · simp [HighPrioProcWorker_body, hT, hne2, INTER_ASSERT, h1, h2]
      · simp [announcements, List.filterMap_cons, announced]
  · refine ⟨"call method failed",
      [Event.sd_bus_call_method "SetHighPrioProc" (some (!w.OldRunLevel))], ?_, ?_⟩
    · simp [HighPrioProcWorker_body, hT, hne2, INTER_ASSERT, h1]
    · simp [announcements, List.filterMap_cons, announced]

theorem announcements_applyCall_any (s : ScheduleService) (c : Call) :
    announcements (applyCall s c).2 = [] := by
  cases c
  · by_cases hP : s.Priority = priority.HIGH <;> by_cases h0 : s.RunLevel = 0 <;>
      simp [applyCall, SchedStart, hP, h0, waitBlocked_nil, announcements, announced]
  · by_cases hP : s.Priority = priority.LOW
    · simp [applyCall, SchedEnd, hP, announcements]
    · by_cases h0 : (UINT_MOD - 1 + s.RunLevel) % UINT_MOD = 0 <;>
        simp [applyCall, SchedEnd, hP, h0, announcements, announced]

theorem Consistent_refl (daemon : Nat → Reply) (w : HighWorker) (pc : WorkerPC) :
    Consistent daemon w.calls { w with pc := pc } [] := by
  refine ⟨by simp [announcements], ?_, ?_⟩
  · intro i h1 h2
    simp only at h2
    omega
  · intro _ i h1 h2
    simp only at h2
    omega

theorem Consistent_self (daemon : Nat → Reply) (w : HighWorker) :
    Consistent daemon w.calls w [] := by
  refine ⟨by simp [announcements], ?_, ?_⟩
  · intro i h1 h2
    omega
  · intro _ i h1 h2
    omega

theorem Consistent_trans (daemon : Nat → Reply) (c0 : Nat) (w1 w2 : HighWorker)
    (e1 e2 : List Event) (h1 : Consistent daemon c0 w1 e1)
    (halive : ∀ msg, w1.pc ≠ WorkerPC.Aborted msg)
    (h2 : Consistent daemon w1.calls w2 e2) :
    Consistent daemon c0 w2 (e1 ++ e2) := by
  obtain ⟨a1, _, a3⟩ := h1
  obtain ⟨b1, b2, b3⟩ := h2
  refine ⟨?_, ?_, ?_⟩
  · rw [announcements_append, List.length_append]
    omega
  · intro i hi hlt
    by_cases hc : i < w1.calls
    · exact a3 halive i hi hc
    · exact b2 i (by omega) hlt
  · intro hal i hi hlt
    by_cases hc : i < w1.calls
    · exact a3 halive i hi hc
    · exact b3 hal i (by omega) hlt

theorem body_consistent (daemon : Nat → Reply) (s : ScheduleService) (w : HighWorker) :
    Consistent daemon w.calls (HighPrioProcWorker_body s w (daemon w.calls)).1
      (HighPrioProcWorker_body s w (daemon w.calls)).2 := by
  cases hT : s.IsOnTerminate with
  | true =>
    rw [body_returned s w _ hT]
    exact Consistent_refl daemon w _
  | false =>
    by_cases heq : w.OldRunLevel = (s.RunLevel != 0)
    · rw [body_wait s w _ hT heq]
      exact Consistent_refl daemon w _
    · cases hg : (daemon w.calls).granted with
      | true =>
        rw [body_granted s w _ hT heq hg]
        refine ⟨by simp [announcements, List.filterMap_cons, announced, Nat.add_comm], ?_, ?_⟩
        · intro i h1 h2
          simp only at h2
          omega
        · intro _ i h1 h2
          simp only at h2
          have hi : i = w.calls := by omega
          rw [hi]
          exact hg
      | false =>
        obtain ⟨msg, ev, hb, hann⟩ := body_denied s w _ hT heq hg
        rw [hb]
        refine ⟨by simp [hann, Nat.add_comm], ?_, ?_⟩
        · intro i h1 h2
          simp only at h2
          omega
        · intro hal
          exact absurd rfl (hal msg)

theorem loop_consistent (daemon : Nat → Reply) (s : ScheduleService) (fuel : Nat) :
    ∀ w : HighWorker, Consistent daemon w.calls (HighPrioProcWorker_loop fuel s w daemon).1
      (HighPrioProcWorker_loop fuel s w daemon).2 := by
  induction fuel with
  | zero =>
    intro w
    simpa [HighPrioProcWorker_loop] using Consistent_refl daemon w w.pc
  | succ fuel ih =>
    intro w
    cases hT : s.IsOnTerminate with
    | true =>
      simpa [HighPrioProcWorker_loop, hT] using Consistent_refl daemon w WorkerPC.Returned
    | false =>
      have hb := body_consistent daemon s w
      cases hpc : (HighPrioProcWorker_body s w (daemon w.calls)).1.pc with
      | LoopHead =>
        have h2 := ih (HighPrioProcWorker_body s w (daemon w.calls)).1
        have h3 := Consistent_trans daemon w.calls _ _ _ _ hb (by simp [hpc]) h2
        simpa [HighPrioProcWorker_loop, hT, hpc] using h3
      | InWait => simpa [HighPrioProcWorker_loop, hT, hpc] using hb
      | Returned => simpa [HighPrioProcWorker_loop, hT, hpc] using hb
      | Aborted msg => simpa [HighPrioProcWorker_loop, hT, hpc] using hb

theorem worker_consistent (daemon : Nat → Reply) (s : ScheduleService) (fuel : Nat)
    (w : HighWorker) :
    Consistent daemon w.calls (HighPrioProcWorker fuel s w daemon).1
      (HighPrioProcWorker fuel s w daemon).2 := by
  cases hw : w.pc with
  | LoopHead => simpa [HighPrioProcWorker, hw] using loop_consistent daemon s fuel w
  | InWait =>
    have hb := body_consistent daemon s w
    cases hpc : (HighPrioProcWorker_body s w (daemon w.calls)).1.pc with
    | LoopHead =>
      have h2 := loop_consistent daemon s fuel (HighPrioProcWorker_body s w (daemon w.calls)).1
      have h3 := Consistent_trans daemon w.calls _ _ _ _ hb (by simp [hpc]) h2
      simpa [HighPrioProcWorker, hw, hpc] using h3
    | InWait => simpa [HighPrioProcWorker, hw, hpc] using hb
    | Returned => simpa [HighPrioProcWorker, hw, hpc] using hb
    | Aborted msg => simpa [HighPrioProcWorker, hw, hpc] using hb
  | Returned => simpa [HighPrioProcWorker, hw] using Consistent_self daemon w
  | Aborted msg => simpa [HighPrioProcWorker, hw] using Consistent_self daemon w

theorem step_aborted (fuel : Nat) (daemon : Nat → Reply) (σ : HighSys) (msg : String)
    (h : σ.w.pc = WorkerPC.Aborted msg) (st : Step) :
    HighSys.step fuel daemon σ st = σ := by
  cases st <;> simp [HighSys.step, HighPrioProcWorker, h]

theorem run_aborted (fuel : Nat) (daemon : Nat → Reply) (steps : List Step) :
    ∀ (σ : HighSys) (msg : String), σ.w.pc = WorkerPC.Aborted msg →
      runSchedule fuel daemon σ steps = σ := by
  induction steps with
  | nil =>
    intro σ _ _
    rfl
  | cons st steps ih =>
    intro σ msg h
    have h1 := step_aborted fuel daemon σ msg h st
    have h2 := ih σ msg h
    simpa [runSchedule, h1] using h2

theorem step_consistent (fuel : Nat) (daemon : Nat → Reply) (σ : HighSys) (st : Step)
    (h : Consistent daemon 0 σ.w σ.events) :
    Consistent daemon 0 (HighSys.step fuel daemon σ st).w
      (HighSys.step fuel daemon σ st).events := by
  by_cases hab : ∃ msg, σ.w.pc = WorkerPC.Aborted msg
  · obtain ⟨msg, hmsg⟩ := hab
    rw [step_aborted fuel daemon σ msg hmsg st]
    exact h
  · have halive : ∀ msg, σ.w.pc ≠ WorkerPC.Aborted msg := fun msg hm => hab ⟨msg, hm⟩
    cases st with
    | call c =>
      have hstep : HighSys.step fuel daemon σ (Step.call c) =
          { σ with s := (applyCall σ.s c).1, events := σ.events ++ (applyCall σ.s c).2 } := by
        cases hpc : σ.w.pc with
        | Aborted msg => exact absurd hpc (halive msg)
        | LoopHead => simp [HighSys.step, hpc]
        | InWait => simp [HighSys.step, hpc]
        | Returned => simp [HighSys.step, hpc]
      rw [hstep]
      obtain ⟨a1, a2, a3⟩ := h
      refine ⟨?_, a2, a3⟩
      simpa [announcements_append, announcements_applyCall_any] using a1
    | worker =>
      exact Consistent_trans daemon 0 _ _ _ _ h halive
        (worker_consistent daemon σ.s fuel σ.w)

theorem run_consistent (fuel : Nat) (daemon : Nat → Reply) (steps : List Step) :
    ∀ σ : HighSys, Consistent daemon 0 σ.w σ.events →
      Consistent daemon 0 (runSchedule fuel daemon σ steps).w
        (runSchedule fuel daemon σ steps).events := by
  induction steps with
  | nil =>
    intro σ h
    exact h
  | cons st steps ih =>
    intro σ h
    have h2 := ih _ (step_consistent fuel daemon σ st h)
    simpa [runSchedule] using h2

/-- C9: in the HIGH worker, an announcement whose `SetHighPrioProc` call and
reply decoding succeed ends the iteration fatally exactly when the granted
value of the reply is 0, with the diagnostic naming the denial; once the worker
has ended fatally no step of any schedule changes anything; and in every run
from a freshly started worker the list of announcements is no longer than the
position of the first reply that is not a grant, at which point the worker has
ended fatally. -/
theorem denial_is_fatal :
    (∀ (s : ScheduleService) (w : HighWorker) (reply : Reply),
      s.IsOnTerminate = false → w.OldRunLevel ≠ (s.RunLevel != 0) →
      0 ≤ reply.callRet → 0 ≤ reply.readRet →
      ((∃ msg, (HighPrioProcWorker_body s w reply).1.pc = WorkerPC.Aborted msg) ↔
        reply.IsGranted = 0) ∧
      (reply.IsGranted = 0 → (HighPrioProcWorker_body s w reply).1.pc =
        WorkerPC.Aborted "the schedule service denied priority change!") ∧
      (reply.IsGranted ≠ 0 →
        (HighPrioProcWorker_body s w reply).1.pc = WorkerPC.LoopHead) ∧
      announcements (HighPrioProcWorker_body s w reply).2 = [!w.OldRunLevel]) ∧
    (∀ (fuel : Nat) (daemon : Nat → Reply) (steps : List Step) (σ : HighSys) (msg : String),
      σ.w.pc = WorkerPC.Aborted msg → runSchedule fuel daemon σ steps = σ) ∧
    (∀ (fuel : Nat) (daemon : Nat → Reply) (steps : List Step) (s : ScheduleService)
      (k : Nat), (daemon k).granted = false →
      (announcements (runSchedule fuel daemon ⟨s, HighWorker.spawned, []⟩
        steps).events).length ≤ k + 1 ∧
      ((announcements (runSchedule fuel daemon ⟨s, HighWorker.spawned, []⟩
        steps).events).length = k + 1 →
        ∃ msg, (runSchedule fuel daemon ⟨s, HighWorker.spawned, []⟩ steps).w.pc =
          WorkerPC.Aborted msg)) := by
  refine ⟨?_, ?_, ?_⟩
  · intro s w reply hT hne h1 h2
    have hne2 : (w.OldRunLevel != (s.RunLevel != 0)) = true := by
      cases hw : w.OldRunLevel <;> cases hr : (s.RunLevel != 0) <;> simp_all
    by_cases h3 : reply.IsGranted = 0
    · simp [HighPrioProcWorker_body, hT, hne2, INTER_ASSERT, h1, h2, h3, announcements,
        List.filterMap_cons, announced]
    · simp [HighPrioProcWorker_body, hT, hne2, INTER_ASSERT, h1, h2, h3, announcements,
        List.filterMap_cons, announced]
  · intro fuel daemon steps σ msg h
    exact run_aborted fuel daemon steps σ msg h
  · intro fuel daemon steps s k hk
    have hc := run_consistent fuel daemon steps ⟨s, HighWorker.spawned, []⟩
      (Consistent_self daemon HighWorker.spawned)
    obtain ⟨c1, c2, c3⟩ := hc
    have hnot : (daemon k).granted ≠ true := by simp [hk]
    constructor
    · by_contra hlt
      exact hnot (c2 k (Nat.zero_le k) (by omega))
    · intro hlen
      by_contra hal
      have hal2 : ∀ msg, (runSchedule fuel daemon ⟨s, HighWorker.spawned, []⟩ steps).w.pc ≠
          WorkerPC.Aborted msg := fun msg hm => hal ⟨msg, hm⟩
      exact hnot (c3 hal2 k (Nat.zero_le k) (by omega))

/-- Scenario D: the daemon denies the first announcement. -/
theorem denial_is_fatal_witness :
    (HighPrioProcWorker_body { highService with RunLevel := 1 } HighWorker.waiting
      (denyAll 0)).1.pc =
      WorkerPC.Aborted "the schedule service denied priority change!" ∧
    (announcements (runSchedule 2 denyAll ⟨highService, HighWorker.spawned, []⟩
      [Step.call Call.SchedStart, Step.worker, Step.call Call.SchedEnd,
       Step.worker]).events).length ≤ 0 + 1 :=
  ⟨(denial_is_fatal.1 { highService with RunLevel := 1 } HighWorker.waiting (denyAll 0)
      rfl (by decide) (by decide) (by decide)).2.1 rfl,
   (denial_is_fatal.2.2 2 denyAll
      [Step.call Call.SchedStart, Step.worker, Step.call Call.SchedEnd, Step.worker]
      highService 0 (by simp [denyAll, Reply.granted])).1⟩

end CLPKM
